import Mathlib

/-!
Verification development for the `udpz` UDP port scanner.

Part 1 embeds the command layer (`src/cmd/root.go`): the global flag
configuration, the `RunE` validation / logging / scanning / export pipeline,
and flag registration.  File-system and network effects are abstracted into
an `Env` oracle (whether the log/output files open successfully, whether
scanner construction succeeds, and how many results the scan produced);
everything else follows the Go source line by line.

Part 2 models the scanning engine (`udpz/pkg/scan`), whose source is not part
of this tree, from the specification: the per-port probe state machine, the
target resolver, the result store, and the two-level bounded scheduler.
-/

/-- The process-wide flag variables of `src/cmd/root.go` (lines 16-45),
gathered into one record.  Go `uint` values are embedded as `Nat`. -/
structure Config where
  hostConcurrency : Nat
  portConcurrency : Nat
  timeoutMs : Nat
  retransmissions : Nat
  scanAllAddresses : Bool
  quiet : Bool
  silent : Bool
  infoLevel : Bool
  debug : Bool
  traceLevel : Bool
  outputPath : String
  logPath : String
  outputFormat : String
  logFormat : String
  outputAppend : Bool
  socks5Address : String
  socks5User : String
  socks5Password : String
  socks5Timeout : Nat
deriving DecidableEq

/-- The initial values of the flag variables (root.go lines 16-45). -/
def defaultConfig : Config :=
  { hostConcurrency := 10
    portConcurrency := 50
    timeoutMs := 3000
    retransmissions := 2
    scanAllAddresses := true
    quiet := false
    silent := false
    infoLevel := true
    debug := false
    traceLevel := false
    outputPath := ""
    logPath := ""
    outputFormat := "auto"
    logFormat := "auto"
    outputAppend := true
    socks5Address := ""
    socks5User := ""
    socks5Password := ""
    socks5Timeout := 3000 }

/-- `supportedLogFormats` (root.go lines 48-52).  Every key maps to `true`
in the Go map, so the lookup `sup, ok := m[k]; !ok || !sup` is just
(non-)membership in this list. -/
def supportedLogFormats : List String :=
  ["json", "jsonl", "pretty", "auto"]

/-- `supportedOutputFormats` (root.go lines 53-61). -/
def supportedOutputFormats : List String :=
  ["text", "txt", "yaml", "yml", "json", "jsonl", "csv", "tsv", "pretty", "auto"]

/-- A value supplied for a command-line flag. -/
inductive FlagValue where
  | str (s : String)
  | nat (n : Nat)
  | boolean (b : Bool)
deriving DecidableEq

/-- The long names of the flags registered in `init` (root.go lines 64-100).
The SOCKS5 proxy flag registrations (lines 86-93) are commented out in the
source, so no `socks*` name appears here. -/
def registeredFlags : List String :=
  ["output", "log", "append", "format", "log-format",
   "host-tasks", "port-tasks", "retries", "timeout",
   "all", "debug", "trace", "quiet", "silent"]

/-- The effect of parsing one flag on the global configuration: each
registered flag writes its bound variable (root.go lines 71-99); an
unregistered name is refused by the flag parser and changes nothing. -/
def applyFlag (cfg : Config) (name : String) (v : FlagValue) : Config :=
  if name = "output" then
    match v with | .str s => { cfg with outputPath := s } | _ => cfg
  else if name = "log" then
    match v with | .str s => { cfg with logPath := s } | _ => cfg
  else if name = "append" then
    match v with | .boolean b => { cfg with outputAppend := b } | _ => cfg
  else if name = "format" then
    match v with | .str s => { cfg with outputFormat := s } | _ => cfg
  else if name = "log-format" then
    match v with | .str s => { cfg with logFormat := s } | _ => cfg
  else if name = "host-tasks" then
    match v with | .nat n => { cfg with hostConcurrency := n } | _ => cfg
  else if name = "port-tasks" then
    match v with | .nat n => { cfg with portConcurrency := n } | _ => cfg
  else if name = "retries" then
    match v with | .nat n => { cfg with retransmissions := n } | _ => cfg
  else if name = "timeout" then
    match v with | .nat n => { cfg with timeoutMs := n } | _ => cfg
  else if name = "all" then
    match v with | .boolean b => { cfg with scanAllAddresses := b } | _ => cfg
  else if name = "debug" then
    match v with | .boolean b => { cfg with debug := b } | _ => cfg
  else if name = "trace" then
    match v with | .boolean b => { cfg with traceLevel := b } | _ => cfg
  else if name = "quiet" then
    match v with | .boolean b => { cfg with quiet := b } | _ => cfg
  else if name = "silent" then
    match v with | .boolean b => { cfg with silent := b } | _ => cfg
  else
    cfg

/-- Parsing a whole command line: the flags are applied in order to the
default configuration. -/
def applyFlags (cfg : Config) (fs : List (String × FlagValue)) : Config :=
  fs.foldl (fun c p => applyFlag c p.1 p.2) cfg

/-- Go's `strings.ToLower` (root.go line 123), character by character.
`Char.toLower` lowercases exactly the ASCII range, which covers every format
keyword the command compares against. -/
def asciiLower (s : String) : String :=
  String.mk (s.data.map Char.toLower)

/-- The validation prefix of `RunE` (root.go lines 123-136): lowercase the
output format, check both format tables, then the concurrency and timeout
bounds.  Returns the error `RunE` would return, or `none` if validation
passes. -/
def validate (cfg : Config) : Option String :=
  let ofmt := asciiLower cfg.outputFormat
  if supportedOutputFormats.contains ofmt = false then
    some ("invalid output format: " ++ ofmt)
  else if supportedLogFormats.contains cfg.logFormat = false then
    some ("invalid log format: " ++ cfg.logFormat)
  else if cfg.portConcurrency < 1 ∨ cfg.hostConcurrency < 1 then
    some "concurrency value must be > 0"
  else if cfg.timeoutMs < 1 then
    some "timeout value must be > 0"
  else
    none

/-- Outcomes of the file-system and scanner-construction effects that `RunE`
performs, supplied as an oracle. -/
structure Env where
  logOpenOk : Bool
  outputOpenOk : Bool
  scannerOk : Bool
  resultCount : Nat
deriving DecidableEq

/-- Where log output goes after the logger is set up. -/
inductive LogDest where
  | stderrSink
  | fileSink
deriving DecidableEq

/-- Where the result export is written. -/
inductive OutSink where
  | stdoutSink
  | fileOut
deriving DecidableEq

/-- Which exporter method of the scanner is invoked (root.go lines 249-257). -/
inductive Exporter where
  | saveJson
  | saveYAML
  | saveTable
deriving DecidableEq

/-- The arguments passed to `scan.NewUdpProbeScanner` (root.go lines 193-203),
other than the logger. -/
structure ScannerArgs where
  scanAllAddresses : Bool
  hostConcurrency : Nat
  portConcurrency : Nat
  retransmissions : Nat
  timeoutMs : Nat
  socks5Address : String
  socks5User : String
  socks5Password : String
  socks5Timeout : Nat
deriving DecidableEq

/-- The scanner-construction arguments as a function of the configuration. -/
def scannerArgsOf (cfg : Config) : ScannerArgs :=
  { scanAllAddresses := cfg.scanAllAddresses
    hostConcurrency := cfg.hostConcurrency
    portConcurrency := cfg.portConcurrency
    retransmissions := cfg.retransmissions
    timeoutMs := cfg.timeoutMs
    socks5Address := cfg.socks5Address
    socks5User := cfg.socks5User
    socks5Password := cfg.socks5Password
    socks5Timeout := cfg.socks5Timeout }

/-- Observable trace of one `RunE` execution. -/
structure RunResult where
  retError : Option String
  newScannerCalled : Bool
  scannerArgs : Option ScannerArgs
  fatalExit : Bool
  scanCalled : Bool
  logDest : Option LogDest
  logOpenErrorLogged : Bool
  outputOpenErrorLogged : Bool
  exportAction : Option (Exporter × OutSink × String)
deriving DecidableEq

/-- The trace of a run that stopped during validation: nothing after the
validation block executed. -/
def validationStop (msg : String) : RunResult :=
  { retError := some msg
    newScannerCalled := false
    scannerArgs := none
    fatalExit := false
    scanCalled := false
    logDest := none
    logOpenErrorLogged := false
    outputOpenErrorLogged := false
    exportAction := none }

/-- Logger setup (root.go lines 155-189): destination and whether the
log-file open failure was logged.  With an empty `logPath` the logger writes
to stderr; otherwise it writes to the file when the open succeeds, and falls
back to stderr (logging an error) when it fails. -/
def setupLog (cfg : Config) (env : Env) : LogDest × Bool :=
  if cfg.logPath = "" then
    (LogDest.stderrSink, false)
  else if env.logOpenOk then
    (LogDest.fileSink, false)
  else
    (LogDest.stderrSink, true)

/-- The exporter selected for a final (already resolved, lowercased) format
string (root.go lines 249-257). -/
def chooseExporter (fmt : String) : Exporter :=
  if fmt = "json" ∨ fmt = "jsonl" then Exporter.saveJson
  else if fmt = "yml" ∨ fmt = "yaml" then Exporter.saveYAML
  else Exporter.saveTable

/-- The export block (root.go lines 225-258), entered only when
`scanner.Length() > 0`.  Returns the export action (exporter, sink, final
format) and whether an output-file open failure was logged.  `ofmt` is the
already-lowercased output format. -/
def exportPhase (cfg : Config) (env : Env) (ofmt : String) :
    Option (Exporter × OutSink × String) × Bool :=
  if env.resultCount = 0 then
    (none, false)
  else if cfg.outputPath = "" then
    let fmt := if ofmt = "auto" then "pretty" else ofmt
    (some (chooseExporter fmt, OutSink.stdoutSink, fmt), false)
  else if env.outputOpenOk then
    let fmt := if ofmt = "auto" then "json" else ofmt
    (some (chooseExporter fmt, OutSink.fileOut, fmt), false)
  else
    let fmt := if ofmt = "auto" then "pretty" else ofmt
    (some (chooseExporter fmt, OutSink.stdoutSink, fmt), true)

/-- The part of `RunE` after validation passes (root.go lines 141-258):
logger setup, scanner construction (fatal on failure via `log.Fatal`),
the blocking `Scan`, and the export block. -/
def runScanPhase (cfg : Config) (env : Env) : RunResult :=
  let logRes := setupLog cfg env
  if env.scannerOk = false then
    { retError := none
      newScannerCalled := true
      scannerArgs := some (scannerArgsOf cfg)
      fatalExit := true
      scanCalled := false
      logDest := some logRes.1
      logOpenErrorLogged := logRes.2
      outputOpenErrorLogged := false
      exportAction := none }
  else
    let exp := exportPhase cfg env (asciiLower cfg.outputFormat)
    { retError := none
      newScannerCalled := true
      scannerArgs := some (scannerArgsOf cfg)
      fatalExit := false
      scanCalled := true
      logDest := some logRes.1
      logOpenErrorLogged := logRes.2
      outputOpenErrorLogged := exp.2
      exportAction := exp.1 }

/-- The whole `RunE` closure (root.go lines 115-260). -/
def runE (cfg : Config) (env : Env) : RunResult :=
  match validate cfg with
  | some msg => validationStop msg
  | none => runScanPhase cfg env

/-- Outcome of `rootCmd.Execute`: either the argument validator rejects the
command line, or `RunE` runs. -/
inductive ExecOutcome where
  | usageError
  | ran (r : RunResult)
deriving DecidableEq

/-- `rootCmd` executed on a parsed command line.  `Args: cobra.MinimumNArgs(1)`
(root.go line 114) rejects the invocation with a usage error before `RunE`
runs whenever fewer than one positional argument is present; this is cobra's
documented contract for `MinimumNArgs`. -/
def rootExecute (cfg : Config) (env : Env) (targets : List String) : ExecOutcome :=
  if targets.length < 1 then
    ExecOutcome.usageError
  else
    ExecOutcome.ran (runE cfg env)

/-!
Part 2: the scanning engine of `udpz/pkg/scan`, whose source is not in this
tree.  Each definition is modelled from the specification, as its doc
comment records.
-/

/-- Modelled from the spec: the probe state machine states of §4.3
(`pkg/scan` is not in the tree).  States `Pending`, `AwaitingResponse`,
`Retrying`, `Open`, `Closed`, `OpenOrFiltered`, `Error`. -/
inductive ProbeState where
  | Pending
  | AwaitingResponse
  | Retrying
  | Open
  | Closed
  | OpenOrFiltered
  | ProbeError
deriving DecidableEq

/-- Modelled from the spec: the terminal states of the probe state machine
(§4.3: terminals = Open, Closed, OpenOrFiltered, Error). -/
def isTerminal : ProbeState → Bool
  | ProbeState.Open => true
  | ProbeState.Closed => true
  | ProbeState.OpenOrFiltered => true
  | ProbeState.ProbeError => true
  | _ => false

/-- Modelled from the spec: what a probe observes while waiting out one
timeout window (§4.3 steps 3-7): a correlated datagram reply, an ICMP
port-unreachable rejection, timer expiry with neither, or a socket-level
failure. -/
inductive AttemptSignal where
  | reply
  | icmpUnreachable
  | timeoutExpiry
  | socketFailure
deriving DecidableEq

/-- Modelled from the spec: one port-probe execution (`pkg/scan` is not in
the tree; §4.3 steps 1-7).  Each round sends one datagram (incrementing
`attempts` and `sent`), then handles the signal observed during that
attempt's timeout window: a reply gives `Open`, an ICMP rejection gives
`Closed`, a socket failure gives `ProbeError`; on timer expiry the probe
retransmits while `attempts < retransmissions + 1` and otherwise terminates
as `OpenOrFiltered`.  Returns (final state, attempts made, datagrams sent);
if the signal list runs out mid-probe the non-terminal `AwaitingResponse`
state is reported. -/
def runProbeAux (r : Nat) (attempts sent : Nat) :
    List AttemptSignal → ProbeState × Nat × Nat
  | [] => (ProbeState.AwaitingResponse, attempts + 1, sent + 1)
  | sig :: rest =>
    match sig with
    | AttemptSignal.reply => (ProbeState.Open, attempts + 1, sent + 1)
    | AttemptSignal.icmpUnreachable => (ProbeState.Closed, attempts + 1, sent + 1)
    | AttemptSignal.socketFailure => (ProbeState.ProbeError, attempts + 1, sent + 1)
    | AttemptSignal.timeoutExpiry =>
      if attempts + 1 < r + 1 then
        runProbeAux r (attempts + 1) (sent + 1) rest
      else
        (ProbeState.OpenOrFiltered, attempts + 1, sent + 1)

/-- Modelled from the spec: a full probe of one port, starting from the
initial `Pending` state with no attempts made, with `r` configured
retransmissions and the given per-attempt signals. -/
def runProbe (r : Nat) (signals : List AttemptSignal) : ProbeState × Nat × Nat :=
  runProbeAux r 0 0 signals

/-- Modelled from the spec: a resolved host (§3): the target string plus the
addresses it resolved to. -/
structure ResolvedHost where
  host : String
  addrs : List String
deriving DecidableEq

/-- Modelled from the spec: a per-target resolution error (§4.1). -/
structure ResolutionError where
  target : String
deriving DecidableEq

/-- Modelled from the spec: resolving a batch of targets (§4.1, §4.5).  The
system resolver is abstracted as `res` (`none` = resolution failure).  Every
target is processed: a resolvable target contributes one `ResolvedHost`, an
unresolvable one contributes one recorded `ResolutionError`, and in neither
case is any other target skipped. -/
def resolveAll (res : String → Option (List String)) :
    List String → List ResolvedHost × List ResolutionError
  | [] => ([], [])
  | t :: ts =>
    let rest := resolveAll res ts
    match res t with
    | some addrs => ({ host := t, addrs := addrs } :: rest.1, rest.2)
    | none => (rest.1, { target := t } :: rest.2)

/-- Modelled from the spec: a probe outcome record (§3): host identifier,
address, port, final state, attempts made. -/
structure ProbeResult where
  host : String
  addr : String
  port : Nat
  state : ProbeState
  attempts : Nat
deriving DecidableEq

/-- Modelled from the spec: the snapshot order of the result store (§4.4):
by host, then by port. -/
def resultLE (a b : ProbeResult) : Prop :=
  a.host < b.host ∨ (a.host = b.host ∧ a.port ≤ b.port)

instance : DecidableRel resultLE := fun a b => by
  unfold resultLE
  infer_instance

instance : IsTotal ProbeResult resultLE where
  total a b := by
    unfold resultLE
    rcases lt_trichotomy a.host b.host with h | h | h
    · exact Or.inl (Or.inl h)
    · rcases Nat.le_total a.port b.port with hp | hp
      · exact Or.inl (Or.inr ⟨h, hp⟩)
      · exact Or.inr (Or.inr ⟨h.symm, hp⟩)
    · exact Or.inr (Or.inl h)

instance : IsTrans ProbeResult resultLE where
  trans a b c hab hbc := by
    unfold resultLE at *
    rcases hab with h1 | ⟨h1, hp1⟩
    · rcases hbc with h2 | ⟨h2, _⟩
      · exact Or.inl (h1.trans h2)
      · exact Or.inl (h2 ▸ h1)
    · rcases hbc with h2 | ⟨h2, hp2⟩
      · exact Or.inl (h1 ▸ h2)
      · exact Or.inr ⟨h1.trans h2, hp1.trans hp2⟩

/-- Modelled from the spec: the result store (§4.4): an append-only list of
terminal probe results. -/
abbrev ResultStore : Type := List ProbeResult

/-- Modelled from the spec: `Add(result)` appends; the mutual-exclusion
guard serialises the appends, so a scan's store is some interleaving-ordered
list of all completed probes. -/
def ResultStore.add (s : ResultStore) (r : ProbeResult) : ResultStore :=
  List.append s [r]

/-- Modelled from the spec: `Length()` (§4.4). -/
def ResultStore.storeLength (s : ResultStore) : Nat :=
  List.length s

/-- Modelled from the spec: `Snapshot()` (§4.4) returns the accumulated
results sorted by (host, then port). -/
def ResultStore.snapshot (s : ResultStore) : List ProbeResult :=
  List.insertionSort resultLE s

/-- The (host, port) key of a probe result, the sort key of `Snapshot()`. -/
def resultKey (a : ProbeResult) : String × Nat :=
  (a.host, a.port)

/-- Modelled from the spec: the two-level bounded worker pool (§4.2, §4.3,
§5), as a transition system.  A state is the list of currently active Port
Probers, each carrying its number of currently active port-probe state
machines.  A prober may start only while fewer than `H` are active; within a
prober a probe may start only while fewer than `P` of its probes are active;
probes finish, and an idle prober retires. -/
inductive SchedStep (H P : Nat) : List Nat → List Nat → Prop
  | startProber {ps : List Nat} (h : ps.length < H) :
      SchedStep H P ps (0 :: ps)
  | finishProber {ps : List Nat} (i : Fin ps.length) (h : ps.get i = 0) :
      SchedStep H P ps (ps.eraseIdx i)
  | startProbe {ps : List Nat} (i : Fin ps.length) (h : ps.get i < P) :
      SchedStep H P ps (ps.set i (ps.get i + 1))
  | finishProbe {ps : List Nat} (i : Fin ps.length) (h : 0 < ps.get i) :
      SchedStep H P ps (ps.set i (ps.get i - 1))

/-- A scheduler state reachable from the idle initial state (no active
probers) by any interleaving of steps. -/
def SchedReachable (H P : Nat) (ps : List Nat) : Prop :=
  Relation.ReflTransGen (SchedStep H P) [] ps

/-!
Theorems.
-/

/-- Claim C9: output-format validation is case-insensitive (the format is
lowercased before the lookup) while log-format validation is case-sensitive:
the string "JSON" passes the `--format` check but is rejected as
`--log-format` with the error `invalid log format: JSON`. -/
theorem format_case_sensitivity_mismatch :
    validate { defaultConfig with outputFormat := "JSON" } = none ∧
    validate { defaultConfig with logFormat := "JSON" } =
      some "invalid log format: JSON" ∧
    supportedOutputFormats.contains (asciiLower "JSON") = true ∧
    supportedLogFormats.contains "JSON" = false := by
  refine ⟨by decide, by decide, by decide, by decide⟩

/-- Claim C10: with zero positional target arguments the command stops with
a usage error from `cobra.MinimumNArgs(1)`: `RunE` never runs, so `Scan` is
never called with an empty target list. -/
theorem empty_targets_usage_error :
    ∀ (cfg : Config) (env : Env),
      rootExecute cfg env [] = ExecOutcome.usageError ∧
      ∀ r : RunResult, rootExecute cfg env [] ≠ ExecOutcome.ran r := by
  intro cfg env
  refine ⟨rfl, ?_⟩
  intro r h
  exact ExecOutcome.noConfusion h

/-- A run of the probe state machine in which every attempt window expires
with no reply and no rejection: with `a` attempts already made, `s` datagrams
already sent and `k` timeout windows remaining such that `a + k` exhausts the
`r + 1` allowed attempts, the probe retransmits through all remaining windows
and terminates as `OpenOrFiltered` with `r + 1` attempts and `s + k` sends. -/
theorem runProbeAux_all_timeouts (r : Nat) :
    ∀ (k a s : Nat), a + k = r + 1 → 1 ≤ k →
      runProbeAux r a s (List.replicate k AttemptSignal.timeoutExpiry) =
        (ProbeState.OpenOrFiltered, r + 1, s + k) := by
  intro k
  induction k with
  | zero => omega
  | succ k ih =>
    intro a s hsum _
    rw [List.replicate_succ]
    cases k with
    | zero =>
      have ha : a = r := by omega
      subst ha
      simp [runProbeAux]
    | succ k' =>
      have hlt : a + 1 < r + 1 := by omega
      rw [show runProbeAux r a s
            (AttemptSignal.timeoutExpiry ::
              List.replicate (k' + 1) AttemptSignal.timeoutExpiry) =
          if a + 1 < r + 1 then
            runProbeAux r (a + 1) (s + 1)
              (List.replicate (k' + 1) AttemptSignal.timeoutExpiry)
          else (ProbeState.OpenOrFiltered, a + 1, s + 1) from rfl]
      rw [if_pos hlt, ih (a + 1) (s + 1) (by omega) (by omega)]
      have h2 : s + 1 + (k' + 1) = s + (k' + 1 + 1) := by omega
      rw [h2]

/-- Claim C2: with `r` configured retransmissions, a probed port that
receives no reply and no ICMP rejection (every one of the `r + 1` attempt
windows expires silently) is sent exactly `r + 1` datagrams, makes exactly
`r + 1` attempts, and is classified with the terminal state
`OpenOrFiltered`. -/
theorem silent_port_gets_r_plus_one_sends (r : Nat) :
    runProbe r (List.replicate (r + 1) AttemptSignal.timeoutExpiry) =
      (ProbeState.OpenOrFiltered, r + 1, r + 1) ∧
    isTerminal ProbeState.OpenOrFiltered = true := by
  constructor
  · have := runProbeAux_all_timeouts r (r + 1) 0 0 (by omega) (by omega)
    simpa [runProbe] using this
  · rfl

/-- Claim C3: within a batch, every resolvable target yields exactly one
`ResolvedHost` (in batch order), every unresolvable target yields zero
`ResolvedHost`s and exactly one recorded `ResolutionError`, and every target
is processed regardless of its siblings' failures: the host and the error
lists are exactly the images of the resolvable and the unresolvable targets,
and their lengths sum to the whole batch. -/
theorem resolution_per_target (res : String → Option (List String))
    (ts : List String) :
    (resolveAll res ts).1 =
      (ts.filter (fun t => (res t).isSome)).map
        (fun t => { host := t, addrs := (res t).getD [] }) ∧
    (resolveAll res ts).2 =
      (ts.filter (fun t => (res t).isNone)).map
        (fun t => { target := t }) ∧
    (resolveAll res ts).1.length + (resolveAll res ts).2.length = ts.length := by
  induction ts with
  | nil => exact ⟨rfl, rfl, rfl⟩
  | cons t ts ih =>
    obtain ⟨ih1, ih2, ih3⟩ := ih
    cases h : res t with
    | some addrs =>
      refine ⟨?_, ?_, ?_⟩
      · simp [resolveAll, h, ih1]
      · simp [resolveAll, h, ih2]
      · simp only [resolveAll, h]
        simpa using by omega
    | none =>
      refine ⟨?_, ?_, ?_⟩
      · simp [resolveAll, h, ih1]
      · simp [resolveAll, h, ih2]
      · simp only [resolveAll, h]
        simpa using by omega

/-- The validation chain with its `let` binding expanded. -/
lemma validate_def (cfg : Config) :
    validate cfg =
      if supportedOutputFormats.contains (asciiLower cfg.outputFormat) = false then
        some ("invalid output format: " ++ asciiLower cfg.outputFormat)
      else if supportedLogFormats.contains cfg.logFormat = false then
        some ("invalid log format: " ++ cfg.logFormat)
      else if cfg.portConcurrency < 1 ∨ cfg.hostConcurrency < 1 then
        some "concurrency value must be > 0"
      else if cfg.timeoutMs < 1 then
        some "timeout value must be > 0"
      else none := rfl

/-- A configuration with a zero concurrency or timeout value never passes
validation. -/
lemma validate_ne_none_of_zero (cfg : Config)
    (h : cfg.hostConcurrency = 0 ∨ cfg.portConcurrency = 0 ∨ cfg.timeoutMs = 0) :
    validate cfg ≠ none := by
  intro hv
  rw [validate_def] at hv
  split_ifs at hv with h1 h2 h3 h4
  rcases h with h | h | h <;> omega

/-- When both format tables accept their inputs, the only validation errors
are the concurrency and the timeout messages. -/
lemma validate_msg_of_zero (cfg : Config)
    (hof : supportedOutputFormats.contains (asciiLower cfg.outputFormat) = true)
    (hlf : supportedLogFormats.contains cfg.logFormat = true)
    (h : cfg.hostConcurrency = 0 ∨ cfg.portConcurrency = 0 ∨ cfg.timeoutMs = 0) :
    validate cfg = some "concurrency value must be > 0" ∨
    validate cfg = some "timeout value must be > 0" := by
  have h1 : ¬ (supportedOutputFormats.contains (asciiLower cfg.outputFormat) = false) := by
    rw [hof]
    exact Bool.true_eq_false ▸ (by simp)
  have h2 : ¬ (supportedLogFormats.contains cfg.logFormat = false) := by
    rw [hlf]
    exact Bool.true_eq_false ▸ (by simp)
  rw [validate_def, if_neg h1, if_neg h2]
  by_cases h3 : cfg.portConcurrency < 1 ∨ cfg.hostConcurrency < 1
  · rw [if_pos h3]
    exact Or.inl rfl
  · rw [if_neg h3]
    have h4 : cfg.timeoutMs < 1 := by
      rcases h with h | h | h
      · exact absurd (Or.inr (by omega)) h3
      · exact absurd (Or.inl (by omega)) h3
      · omega
    rw [if_pos h4]
    exact Or.inr rfl

/-- A validation failure makes `RunE` return that error with nothing after
the validation block executed. -/
lemma runE_of_validate_some (cfg : Config) (env : Env) (msg : String)
    (h : validate cfg = some msg) :
    runE cfg env = validationStop msg := by
  unfold runE
  rw [h]

/-- When validation passes, `RunE` proceeds into the scanning phase. -/
lemma runE_of_validate_none (cfg : Config) (env : Env)
    (h : validate cfg = none) :
    runE cfg env = runScanPhase cfg env := by
  unfold runE
  rw [h]

/-- Claim C1: whenever `hostConcurrency`, `portConcurrency` or `timeoutMs`
is zero, `RunE` returns an error before `NewUdpProbeScanner` and before
`Scan` are called, so no scanning begins; when additionally both format
checks pass, the error is the concurrency or the timeout message.
Conversely, a scanner-construction failure is fatal (`log.Fatal`), again
before any scanning. -/
theorem zero_config_fails_before_scan (cfg : Config) (env : Env)
    (h : cfg.hostConcurrency = 0 ∨ cfg.portConcurrency = 0 ∨ cfg.timeoutMs = 0) :
    ((runE cfg env).retError ≠ none ∧
     (runE cfg env).newScannerCalled = false ∧
     (runE cfg env).scanCalled = false ∧
     (supportedOutputFormats.contains (asciiLower cfg.outputFormat) = true →
      supportedLogFormats.contains cfg.logFormat = true →
      (runE cfg env).retError = some "concurrency value must be > 0" ∨
      (runE cfg env).retError = some "timeout value must be > 0")) ∧
    (∀ (cfg' : Config) (env' : Env),
      validate cfg' = none → env'.scannerOk = false →
      (runE cfg' env').fatalExit = true ∧ (runE cfg' env').scanCalled = false) := by
  constructor
  · have hne := validate_ne_none_of_zero cfg h
    obtain ⟨msg, hmsg⟩ : ∃ msg, validate cfg = some msg := by
      cases hv : validate cfg with
      | none => exact absurd hv hne
      | some m => exact ⟨m, rfl⟩
    rw [runE_of_validate_some cfg env msg hmsg]
    refine ⟨Option.some_ne_none _, rfl, rfl, ?_⟩
    intro hof hlf
    have := validate_msg_of_zero cfg hof hlf h
    rw [hmsg] at this
    rcases this with h' | h'
    · exact Or.inl (by rw [show (validationStop msg).retError = some msg from rfl, h'])
    · exact Or.inr (by rw [show (validationStop msg).retError = some msg from rfl, h'])
  · intro cfg' env' hv hs
    rw [runE_of_validate_none cfg' env' hv]
    unfold runScanPhase
    rw [hs]
    exact ⟨rfl, rfl⟩

/-- The statement of `zero_config_fails_before_scan` holds at the concrete
configuration that sets `--host-tasks 0`, with every file operation
succeeding. -/
theorem zero_config_fails_before_scan_witness :
    (({ defaultConfig with hostConcurrency := 0 } : Config).hostConcurrency = 0 ∨
     ({ defaultConfig with hostConcurrency := 0 } : Config).portConcurrency = 0 ∨
     ({ defaultConfig with hostConcurrency := 0 } : Config).timeoutMs = 0) ∧
    (((runE { defaultConfig with hostConcurrency := 0 }
        ⟨true, true, true, 0⟩).retError ≠ none ∧
      (runE { defaultConfig with hostConcurrency := 0 }
        ⟨true, true, true, 0⟩).newScannerCalled = false ∧
      (runE { defaultConfig with hostConcurrency := 0 }
        ⟨true, true, true, 0⟩).scanCalled = false ∧
      (supportedOutputFormats.contains
          (asciiLower ({ defaultConfig with hostConcurrency := 0 } : Config).outputFormat) = true →
       supportedLogFormats.contains
          ({ defaultConfig with hostConcurrency := 0 } : Config).logFormat = true →
       (runE { defaultConfig with hostConcurrency := 0 }
          ⟨true, true, true, 0⟩).retError = some "concurrency value must be > 0" ∨
       (runE { defaultConfig with hostConcurrency := 0 }
          ⟨true, true, true, 0⟩).retError = some "timeout value must be > 0")) ∧
     (∀ (cfg' : Config) (env' : Env),
       validate cfg' = none → env'.scannerOk = false →
       (runE cfg' env').fatalExit = true ∧ (runE cfg' env').scanCalled = false)) :=
  ⟨Or.inl rfl,
   zero_config_fails_before_scan { defaultConfig with hostConcurrency := 0 }
     ⟨true, true, true, 0⟩ (Or.inl rfl)⟩

/-- One flag application never writes any of the four SOCKS5 variables:
no registered flag is bound to them. -/
lemma applyFlag_preserves_socks (cfg : Config) (name : String) (v : FlagValue) :
    (applyFlag cfg name v).socks5Address = cfg.socks5Address ∧
    (applyFlag cfg name v).socks5User = cfg.socks5User ∧
    (applyFlag cfg name v).socks5Password = cfg.socks5Password ∧
    (applyFlag cfg name v).socks5Timeout = cfg.socks5Timeout := by
  refine ⟨?_, ?_, ?_, ?_⟩
  · cases v <;>
      · simp only [applyFlag]
        simp only [apply_ite Config.socks5Address]
        simp only [ite_self]
  · cases v <;>
      · simp only [applyFlag]
        simp only [apply_ite Config.socks5User]
        simp only [ite_self]
  · cases v <;>
      · simp only [applyFlag]
        simp only [apply_ite Config.socks5Password]
        simp only [ite_self]
  · cases v <;>
      · simp only [applyFlag]
        simp only [apply_ite Config.socks5Timeout]
        simp only [ite_self]

/-- Flag parsing never writes any of the four SOCKS5 variables. -/
lemma applyFlags_preserves_socks (fs : List (String × FlagValue)) :
    ∀ cfg : Config,
      (applyFlags cfg fs).socks5Address = cfg.socks5Address ∧
      (applyFlags cfg fs).socks5User = cfg.socks5User ∧
      (applyFlags cfg fs).socks5Password = cfg.socks5Password ∧
      (applyFlags cfg fs).socks5Timeout = cfg.socks5Timeout := by
  induction fs with
  | nil => exact fun cfg => ⟨rfl, rfl, rfl, rfl⟩
  | cons p fs ih =>
    intro cfg
    obtain ⟨i1, i2, i3, i4⟩ := ih (applyFlag cfg p.1 p.2)
    obtain ⟨a1, a2, a3, a4⟩ := applyFlag_preserves_socks cfg p.1 p.2
    exact ⟨i1.trans a1, i2.trans a2, i3.trans a3, i4.trans a4⟩

/-- Whenever `RunE` reaches scanner construction, the arguments passed to
`NewUdpProbeScanner` are exactly the current configuration's values. -/
lemma runE_scannerArgs (cfg : Config) (env : Env) :
    (runE cfg env).scannerArgs = none ∨
    (runE cfg env).scannerArgs = some (scannerArgsOf cfg) := by
  unfold runE
  cases validate cfg with
  | some msg => exact Or.inl rfl
  | none =>
    unfold runScanPhase
    by_cases hs : env.scannerOk = false
    · rw [if_pos hs]
      exact Or.inr rfl
    · rw [if_neg hs]
      exact Or.inr rfl

/-- The trace of a run in which validation passed and scanner construction
succeeded: the scan runs and the export block follows. -/
lemma runE_success (cfg : Config) (env : Env)
    (hv : validate cfg = none) (hs : env.scannerOk = true) :
    runE cfg env =
      { retError := none
        newScannerCalled := true
        scannerArgs := some (scannerArgsOf cfg)
        fatalExit := false
        scanCalled := true
        logDest := some (setupLog cfg env).1
        logOpenErrorLogged := (setupLog cfg env).2
        outputOpenErrorLogged := (exportPhase cfg env (asciiLower cfg.outputFormat)).2
        exportAction := (exportPhase cfg env (asciiLower cfg.outputFormat)).1 } := by
  rw [runE_of_validate_none cfg env hv]
  unfold runScanPhase
  rw [hs]
  simp

/-- The exporter dispatch of root.go lines 249-257, characterised: `SaveJson`
exactly for the two JSON formats, `SaveYAML` exactly for the two YAML
formats, `SaveTable` for everything else. -/
lemma chooseExporter_spec (fmt : String) :
    (chooseExporter fmt = Exporter.saveJson ↔ (fmt = "json" ∨ fmt = "jsonl")) ∧
    (chooseExporter fmt = Exporter.saveYAML ↔ (fmt = "yml" ∨ fmt = "yaml")) ∧
    ((fmt ≠ "json" ∧ fmt ≠ "jsonl" ∧ fmt ≠ "yml" ∧ fmt ≠ "yaml") →
      chooseExporter fmt = Exporter.saveTable) := by
  unfold chooseExporter
  split_ifs with h1 h2
  · refine ⟨by simp [h1], ⟨fun h => absurd h (by decide), fun h => ?_⟩, fun h => ?_⟩
    · rcases h1 with h1 | h1 <;> rcases h with h | h <;>
        exact absurd (h1.symm.trans h) (by decide)
    · rcases h1 with h1 | h1
      · exact absurd h1 h.1
      · exact absurd h1 h.2.1
  · refine ⟨by simp [h1], ⟨fun _ => h2, fun _ => rfl⟩, fun h => ?_⟩
    rcases h2 with h2 | h2
    · exact absurd h2 h.2.2.1
    · exact absurd h2 h.2.2.2
  · exact ⟨by simp [h1], by simp [h2], fun _ => rfl⟩

/-- Claim C6: after the scan completes, an exporter runs only when
`Length() > 0`, and the exporter is selected by the lowercased output
format: `SaveJson` for json/jsonl, `SaveYAML` for yml/yaml, `SaveTable` for
every other accepted format; the format `auto` resolves to `pretty` when
writing to stdout (no output path, or the output file failed to open) and to
`json` when writing to a successfully opened output file. -/
theorem exporter_selection (cfg : Config) (env : Env)
    (hv : validate cfg = none) (hs : env.scannerOk = true) :
    (runE cfg env).scanCalled = true ∧
    (env.resultCount = 0 → (runE cfg env).exportAction = none) ∧
    (0 < env.resultCount → ∃ e sink fmt,
      (runE cfg env).exportAction = some (e, sink, fmt) ∧
      e = chooseExporter fmt ∧
      (e = Exporter.saveJson ↔ (fmt = "json" ∨ fmt = "jsonl")) ∧
      (e = Exporter.saveYAML ↔ (fmt = "yml" ∨ fmt = "yaml")) ∧
      ((fmt ≠ "json" ∧ fmt ≠ "jsonl" ∧ fmt ≠ "yml" ∧ fmt ≠ "yaml") →
        e = Exporter.saveTable) ∧
      (asciiLower cfg.outputFormat ≠ "auto" →
        fmt = asciiLower cfg.outputFormat) ∧
      (asciiLower cfg.outputFormat = "auto" →
        ((cfg.outputPath = "" ∨ env.outputOpenOk = false) →
          fmt = "pretty" ∧ sink = OutSink.stdoutSink) ∧
        (cfg.outputPath ≠ "" → env.outputOpenOk = true →
          fmt = "json" ∧ sink = OutSink.fileOut))) := by
  rw [runE_success cfg env hv hs]
  refine ⟨rfl, ?_, ?_⟩
  · intro h0
    show (exportPhase cfg env (asciiLower cfg.outputFormat)).1 = none
    unfold exportPhase
    rw [if_pos h0]
  · intro hpos
    have hne : ¬ (env.resultCount = 0) := by omega
    show ∃ e sink fmt,
      (exportPhase cfg env (asciiLower cfg.outputFormat)).1 = some (e, sink, fmt) ∧ _
    unfold exportPhase
    rw [if_neg hne]
    by_cases hop : cfg.outputPath = ""
    · rw [if_pos hop]
      by_cases hauto : asciiLower cfg.outputFormat = "auto"
      · rw [if_pos hauto]
        obtain ⟨s1, s2, s3⟩ := chooseExporter_spec "pretty"
        exact ⟨chooseExporter "pretty", OutSink.stdoutSink, "pretty", rfl, rfl,
          s1, s2, s3, fun h => absurd hauto h,
          fun _ => ⟨fun _ => ⟨rfl, rfl⟩, fun hop' _ => absurd hop hop'⟩⟩
      · rw [if_neg hauto]
        obtain ⟨s1, s2, s3⟩ := chooseExporter_spec (asciiLower cfg.outputFormat)
        exact ⟨chooseExporter (asciiLower cfg.outputFormat), OutSink.stdoutSink,
          asciiLower cfg.outputFormat, rfl, rfl, s1, s2, s3, fun _ => rfl,
          fun hauto' => absurd hauto' hauto⟩
    · rw [if_neg hop]
      by_cases hopen : env.outputOpenOk = true
      · rw [if_pos hopen]
        by_cases hauto : asciiLower cfg.outputFormat = "auto"
        · rw [if_pos hauto]
          obtain ⟨s1, s2, s3⟩ := chooseExporter_spec "json"
          exact ⟨chooseExporter "json", OutSink.fileOut, "json", rfl, rfl,
            s1, s2, s3, fun h => absurd hauto h,
            fun _ => ⟨fun h => absurd (h.resolve_left hop) (by rw [hopen]; simp),
              fun _ _ => ⟨rfl, rfl⟩⟩⟩
        · rw [if_neg hauto]
          obtain ⟨s1, s2, s3⟩ := chooseExporter_spec (asciiLower cfg.outputFormat)
          exact ⟨chooseExporter (asciiLower cfg.outputFormat), OutSink.fileOut,
            asciiLower cfg.outputFormat, rfl, rfl, s1, s2, s3, fun _ => rfl,
            fun hauto' => absurd hauto' hauto⟩
      · rw [if_neg hopen]
        by_cases hauto : asciiLower cfg.outputFormat = "auto"
        · rw [if_pos hauto]
          obtain ⟨s1, s2, s3⟩ := chooseExporter_spec "pretty"
          exact ⟨chooseExporter "pretty", OutSink.stdoutSink, "pretty", rfl, rfl,
            s1, s2, s3, fun h => absurd hauto h,
            fun _ => ⟨fun _ => ⟨rfl, rfl⟩, fun _ hopen' => absurd hopen' hopen⟩⟩
        · rw [if_neg hauto]
          obtain ⟨s1, s2, s3⟩ := chooseExporter_spec (asciiLower cfg.outputFormat)
          exact ⟨chooseExporter (asciiLower cfg.outputFormat), OutSink.stdoutSink,
            asciiLower cfg.outputFormat, rfl, rfl, s1, s2, s3, fun _ => rfl,
            fun hauto' => absurd hauto' hauto⟩

/-- The statement of `exporter_selection` holds at the default configuration
with a successful scanner and an empty result set. -/
theorem exporter_selection_witness :
    validate defaultConfig = none ∧
    (⟨true, true, true, 0⟩ : Env).scannerOk = true ∧
    ((runE defaultConfig ⟨true, true, true, 0⟩).scanCalled = true ∧
     ((⟨true, true, true, 0⟩ : Env).resultCount = 0 →
       (runE defaultConfig ⟨true, true, true, 0⟩).exportAction = none) ∧
     (0 < (⟨true, true, true, 0⟩ : Env).resultCount → ∃ e sink fmt,
       (runE defaultConfig ⟨true, true, true, 0⟩).exportAction =
         some (e, sink, fmt) ∧
       e = chooseExporter fmt ∧
       (e = Exporter.saveJson ↔ (fmt = "json" ∨ fmt = "jsonl")) ∧
       (e = Exporter.saveYAML ↔ (fmt = "yml" ∨ fmt = "yaml")) ∧
       ((fmt ≠ "json" ∧ fmt ≠ "jsonl" ∧ fmt ≠ "yml" ∧ fmt ≠ "yaml") →
         e = Exporter.saveTable) ∧
       (asciiLower defaultConfig.outputFormat ≠ "auto" →
         fmt = asciiLower defaultConfig.outputFormat) ∧
       (asciiLower defaultConfig.outputFormat = "auto" →
         ((defaultConfig.outputPath = "" ∨
           (⟨true, true, true, 0⟩ : Env).outputOpenOk = false) →
           fmt = "pretty" ∧ sink = OutSink.stdoutSink) ∧
         (defaultConfig.outputPath ≠ "" →
          (⟨true, true, true, 0⟩ : Env).outputOpenOk = true →
           fmt = "json" ∧ sink = OutSink.fileOut)))) :=
  ⟨by decide, rfl,
   exporter_selection defaultConfig ⟨true, true, true, 0⟩ (by decide) rfl⟩

/-- Logger setup when a log path is configured but the file fails to open:
the logger falls back to stderr and the failure is logged. -/
lemma setupLog_fail (cfg : Config) (env : Env)
    (hlp : cfg.logPath ≠ "") (hl : env.logOpenOk = false) :
    setupLog cfg env = (LogDest.stderrSink, true) := by
  unfold setupLog
  rw [if_neg hlp, if_neg (by simp [hl])]

/-- The export block when results exist, an output path is configured, and
the output file fails to open: the export falls back to stdout (resolving
`auto` to `pretty`) and the failure is logged. -/
lemma exportPhase_failopen (cfg : Config) (env : Env) (ofmt : String)
    (hpos : 0 < env.resultCount)
    (hop : cfg.outputPath ≠ "") (hout : env.outputOpenOk = false) :
    exportPhase cfg env ofmt =
      (some (chooseExporter (if ofmt = "auto" then "pretty" else ofmt),
             OutSink.stdoutSink, if ofmt = "auto" then "pretty" else ofmt),
       true) := by
  unfold exportPhase
  rw [if_neg (by omega), if_neg hop, if_neg (by simp [hout])]

/-- `RunE` only ever returns an error out of the validation block. -/
lemma runE_retError_none (cfg : Config) (env : Env)
    (h : validate cfg = none) : (runE cfg env).retError = none := by
  rw [runE_of_validate_none cfg env h]
  unfold runScanPhase
  by_cases hs : env.scannerOk = false
  · rw [if_pos hs]
  · rw [if_neg hs]

/-- `RunE` exits fatally exactly when validation passed but scanner
construction failed. -/
lemma runE_fatal_inv (cfg : Config) (env : Env)
    (h : (runE cfg env).fatalExit = true) :
    validate cfg = none ∧ env.scannerOk = false := by
  cases hv : validate cfg with
  | some msg =>
    rw [runE_of_validate_some cfg env msg hv] at h
    simp [validationStop] at h
  | none =>
    refine ⟨rfl, ?_⟩
    cases hsb : env.scannerOk with
    | false => rfl
    | true =>
      rw [runE_success cfg env hv hsb] at h
      simp at h

/-- Claim C7: when opening the log file and the output file both fail, the
command does not abort: no error is returned and no fatal exit happens, the
logger falls back to stderr and records the failure, the scan still runs,
and when there are results the export still runs, to stdout, recording the
output-file failure and resolving the `auto` format to `pretty`.  Moreover
(last two conjuncts) a returned error can only come from the validation
block, and a fatal exit only from scanner construction — never from a file
open failure. -/
theorem file_open_failures_nonfatal (cfg : Config) (env : Env)
    (hv : validate cfg = none) (hs : env.scannerOk = true)
    (hlp : cfg.logPath ≠ "") (hlog : env.logOpenOk = false)
    (hop : cfg.outputPath ≠ "") (hout : env.outputOpenOk = false) :
    (runE cfg env).retError = none ∧
    (runE cfg env).fatalExit = false ∧
    (runE cfg env).scanCalled = true ∧
    (runE cfg env).logDest = some LogDest.stderrSink ∧
    (runE cfg env).logOpenErrorLogged = true ∧
    (0 < env.resultCount →
      (runE cfg env).outputOpenErrorLogged = true ∧
      ∃ e fmt, (runE cfg env).exportAction = some (e, OutSink.stdoutSink, fmt) ∧
        (asciiLower cfg.outputFormat = "auto" → fmt = "pretty")) ∧
    (∀ (cfg' : Config) (env' : Env),
      (runE cfg' env').retError ≠ none → validate cfg' ≠ none) ∧
    (∀ (cfg' : Config) (env' : Env),
      (runE cfg' env').fatalExit = true →
      validate cfg' = none ∧ env'.scannerOk = false) := by
  rw [runE_success cfg env hv hs]
  refine ⟨rfl, rfl, rfl, ?_, ?_, ?_, ?_, ?_⟩
  · show some (setupLog cfg env).1 = some LogDest.stderrSink
    rw [setupLog_fail cfg env hlp hlog]
  · show (setupLog cfg env).2 = true
    rw [setupLog_fail cfg env hlp hlog]
  · intro hpos
    constructor
    · show (exportPhase cfg env (asciiLower cfg.outputFormat)).2 = true
      rw [exportPhase_failopen cfg env (asciiLower cfg.outputFormat) hpos hop hout]
    · refine ⟨chooseExporter
        (if asciiLower cfg.outputFormat = "auto" then "pretty"
         else asciiLower cfg.outputFormat),
        (if asciiLower cfg.outputFormat = "auto" then "pretty"
         else asciiLower cfg.outputFormat), ?_, ?_⟩
      · show (exportPhase cfg env (asciiLower cfg.outputFormat)).1 = _
        rw [exportPhase_failopen cfg env (asciiLower cfg.outputFormat) hpos hop hout]
      · intro hauto
        rw [if_pos hauto]
  · intro cfg' env' hne hv'
    exact hne (runE_retError_none cfg' env' hv')
  · intro cfg' env' hfat
    exact runE_fatal_inv cfg' env' hfat

/-- The statement of `file_open_failures_nonfatal` holds at the concrete
invocation that sets a log path and an output path, where both opens fail,
scanner construction succeeds, and one result was collected. -/
theorem file_open_failures_nonfatal_witness :
    validate { defaultConfig with logPath := "udpz.log", outputPath := "res" } = none ∧
    (⟨false, false, true, 1⟩ : Env).scannerOk = true ∧
    ({ defaultConfig with logPath := "udpz.log", outputPath := "res" } : Config).logPath ≠ "" ∧
    (⟨false, false, true, 1⟩ : Env).logOpenOk = false ∧
    ({ defaultConfig with logPath := "udpz.log", outputPath := "res" } : Config).outputPath ≠ "" ∧
    (⟨false, false, true, 1⟩ : Env).outputOpenOk = false ∧
    ((runE { defaultConfig with logPath := "udpz.log", outputPath := "res" }
        ⟨false, false, true, 1⟩).retError = none ∧
     (runE { defaultConfig with logPath := "udpz.log", outputPath := "res" }
        ⟨false, false, true, 1⟩).fatalExit = false ∧
     (runE { defaultConfig with logPath := "udpz.log", outputPath := "res" }
        ⟨false, false, true, 1⟩).scanCalled = true ∧
     (runE { defaultConfig with logPath := "udpz.log", outputPath := "res" }
        ⟨false, false, true, 1⟩).logDest = some LogDest.stderrSink ∧
     (runE { defaultConfig with logPath := "udpz.log", outputPath := "res" }
        ⟨false, false, true, 1⟩).logOpenErrorLogged = true ∧
     (0 < (⟨false, false, true, 1⟩ : Env).resultCount →
       (runE { defaultConfig with logPath := "udpz.log", outputPath := "res" }
          ⟨false, false, true, 1⟩).outputOpenErrorLogged = true ∧
       ∃ e fmt,
         (runE { defaultConfig with logPath := "udpz.log", outputPath := "res" }
            ⟨false, false, true, 1⟩).exportAction =
           some (e, OutSink.stdoutSink, fmt) ∧
         (asciiLower ({ defaultConfig with logPath := "udpz.log", outputPath := "res" } : Config).outputFormat = "auto" →
           fmt = "pretty")) ∧
     (∀ (cfg' : Config) (env' : Env),
       (runE cfg' env').retError ≠ none → validate cfg' ≠ none) ∧
     (∀ (cfg' : Config) (env' : Env),
       (runE cfg' env').fatalExit = true →
       validate cfg' = none ∧ env'.scannerOk = false)) :=
  ⟨by decide, rfl, by decide, rfl, by decide, rfl,
   file_open_failures_nonfatal
     { defaultConfig with logPath := "udpz.log", outputPath := "res" }
     ⟨false, false, true, 1⟩ (by decide) rfl (by decide) rfl (by decide) rfl⟩

/-- Claim C8: the SOCKS5 proxy configuration is a disabled placeholder: none
of its four command-line flags is registered (the registration block is
commented out in `init`), parsing any command line therefore leaves the four
proxy variables at their initial values, and every `NewUdpProbeScanner`
invocation receives empty proxy address/username/password strings and a
proxy timeout of 3000. -/
theorem socks5_disabled_placeholder :
    ∀ (fs : List (String × FlagValue)) (env : Env),
      registeredFlags.contains "socks" = false ∧
      registeredFlags.contains "socks-user" = false ∧
      registeredFlags.contains "socks-pass" = false ∧
      registeredFlags.contains "socks-timeout" = false ∧
      (applyFlags defaultConfig fs).socks5Address = "" ∧
      (applyFlags defaultConfig fs).socks5User = "" ∧
      (applyFlags defaultConfig fs).socks5Password = "" ∧
      (applyFlags defaultConfig fs).socks5Timeout = 3000 ∧
      ((runE (applyFlags defaultConfig fs) env).scannerArgs = none ∨
       (runE (applyFlags defaultConfig fs) env).scannerArgs =
         some (scannerArgsOf (applyFlags defaultConfig fs))) ∧
      (scannerArgsOf (applyFlags defaultConfig fs)).socks5Address = "" ∧
      (scannerArgsOf (applyFlags defaultConfig fs)).socks5User = "" ∧
      (scannerArgsOf (applyFlags defaultConfig fs)).socks5Password = "" ∧
      (scannerArgsOf (applyFlags defaultConfig fs)).socks5Timeout = 3000 := by
  intro fs env
  obtain ⟨p1, p2, p3, p4⟩ := applyFlags_preserves_socks fs defaultConfig
  refine ⟨by decide, by decide, by decide, by decide,
    p1, p2, p3, p4,
    runE_scannerArgs (applyFlags defaultConfig fs) env,
    ?_, ?_, ?_, ?_⟩
  · exact p1
  · exact p2
  · exact p3
  · exact p4

/-- Mutual `resultLE` bounds force equal sort keys. -/
lemma resultKey_eq_of_le_le {a b : ProbeResult}
    (h1 : resultLE a b) (h2 : resultLE b a) : resultKey a = resultKey b := by
  unfold resultLE at h1 h2
  rcases h1 with h1 | ⟨h1, hp1⟩
  · rcases h2 with h2 | ⟨h2, _⟩
    · exact absurd (h1.trans h2) (lt_irrefl _)
    · exact absurd (h2 ▸ h1) (lt_irrefl _)
  · rcases h2 with h2 | ⟨_, hp2⟩
    · exact absurd (h1 ▸ h2) (lt_irrefl _)
    · unfold resultKey
      rw [h1, Nat.le_antisymm hp1 hp2]

/-- Two sorted lists over the snapshot order that are permutations of each
other, with pairwise-distinct (host, port) keys, are equal: the snapshot
order is deterministic whenever keys do not repeat. -/
lemma sorted_perm_eq_of_injKeys :
    ∀ (l₁ l₂ : List ProbeResult),
      (∀ a ∈ l₁, ∀ b ∈ l₁, resultKey a = resultKey b → a = b) →
      List.Perm l₁ l₂ → List.Sorted resultLE l₁ → List.Sorted resultLE l₂ →
      l₁ = l₂
  | [], _, _, hp, _, _ => hp.nil_eq
  | a :: t₁, l₂, hinj, hp, hs₁, hs₂ => by
    cases l₂ with
    | nil =>
      have := hp.eq_nil
      simp at this
    | cons b t₂ =>
      have hab : a = b := by
        by_cases h : a = b
        · exact h
        · have ha2 : a ∈ t₂ := by
            have hm : a ∈ b :: t₂ := hp.subset (List.mem_cons_self a t₁)
            exact (List.mem_cons.mp hm).resolve_left h
          have hb1 : b ∈ t₁ := by
            have hm : b ∈ a :: t₁ := hp.symm.subset (List.mem_cons_self b t₂)
            exact (List.mem_cons.mp hm).resolve_left (fun hh => h hh.symm)
          have hle1 : resultLE a b := List.rel_of_sorted_cons hs₁ b hb1
          have hle2 : resultLE b a := List.rel_of_sorted_cons hs₂ a ha2
          exact hinj a (List.mem_cons_self a t₁) b (List.mem_cons_of_mem a hb1)
            (resultKey_eq_of_le_le hle1 hle2)
      subst hab
      have hp' : List.Perm t₁ t₂ := hp.cons_inv
      have hinj' : ∀ x ∈ t₁, ∀ y ∈ t₁, resultKey x = resultKey y → x = y :=
        fun x hx y hy =>
          hinj x (List.mem_cons_of_mem a hx) y (List.mem_cons_of_mem a hy)
      rw [sorted_perm_eq_of_injKeys t₁ t₂ hinj' hp' hs₁.of_cons hs₂.of_cons]

/-- Claim C4, counterexample to the claim as stated: two probe results that
share (host, port) but differ in address — as a multi-address host produces
under the default `scanAllAddresses = true` — give different snapshots for
the two completion orders: the sort by (host, then port) is stable, so
equal-key results keep their arrival order.  The two stores are permutations
of each other (the same completed probes), yet their snapshots differ. -/
theorem snapshot_arrival_order_dependent :
    List.Perm
      ([⟨"hostA", "10.0.0.1", 53, ProbeState.Open, 1⟩,
        ⟨"hostA", "10.0.0.2", 53, ProbeState.OpenOrFiltered, 3⟩] :
        List ProbeResult)
      ([⟨"hostA", "10.0.0.2", 53, ProbeState.OpenOrFiltered, 3⟩,
        ⟨"hostA", "10.0.0.1", 53, ProbeState.Open, 1⟩] : List ProbeResult) ∧
    ResultStore.snapshot
      [⟨"hostA", "10.0.0.1", 53, ProbeState.Open, 1⟩,
       ⟨"hostA", "10.0.0.2", 53, ProbeState.OpenOrFiltered, 3⟩] ≠
    ResultStore.snapshot
      [⟨"hostA", "10.0.0.2", 53, ProbeState.OpenOrFiltered, 3⟩,
       ⟨"hostA", "10.0.0.1", 53, ProbeState.Open, 1⟩] := by
  constructor
  · decide
  · have hx : resultLE (⟨"hostA", "10.0.0.1", 53, ProbeState.Open, 1⟩ : ProbeResult)
        ⟨"hostA", "10.0.0.2", 53, ProbeState.OpenOrFiltered, 3⟩ :=
      Or.inr ⟨rfl, Nat.le_refl 53⟩
    have hy : resultLE (⟨"hostA", "10.0.0.2", 53, ProbeState.OpenOrFiltered, 3⟩ : ProbeResult)
        ⟨"hostA", "10.0.0.1", 53, ProbeState.Open, 1⟩ :=
      Or.inr ⟨rfl, Nat.le_refl 53⟩
    have e1 : ResultStore.snapshot
        [⟨"hostA", "10.0.0.1", 53, ProbeState.Open, 1⟩,
         ⟨"hostA", "10.0.0.2", 53, ProbeState.OpenOrFiltered, 3⟩] =
        [⟨"hostA", "10.0.0.1", 53, ProbeState.Open, 1⟩,
         ⟨"hostA", "10.0.0.2", 53, ProbeState.OpenOrFiltered, 3⟩] := by
      show (if resultLE ⟨"hostA", "10.0.0.1", 53, ProbeState.Open, 1⟩
              (⟨"hostA", "10.0.0.2", 53, ProbeState.OpenOrFiltered, 3⟩ : ProbeResult) then
              [(⟨"hostA", "10.0.0.1", 53, ProbeState.Open, 1⟩ : ProbeResult),
               ⟨"hostA", "10.0.0.2", 53, ProbeState.OpenOrFiltered, 3⟩]
            else
              ⟨"hostA", "10.0.0.2", 53, ProbeState.OpenOrFiltered, 3⟩ ::
                List.orderedInsert resultLE
                  ⟨"hostA", "10.0.0.1", 53, ProbeState.Open, 1⟩ []) = _
      rw [if_pos hx]
    have e2 : ResultStore.snapshot
        [⟨"hostA", "10.0.0.2", 53, ProbeState.OpenOrFiltered, 3⟩,
         ⟨"hostA", "10.0.0.1", 53, ProbeState.Open, 1⟩] =
        [⟨"hostA", "10.0.0.2", 53, ProbeState.OpenOrFiltered, 3⟩,
         ⟨"hostA", "10.0.0.1", 53, ProbeState.Open, 1⟩] := by
      show (if resultLE ⟨"hostA", "10.0.0.2", 53, ProbeState.OpenOrFiltered, 3⟩
              (⟨"hostA", "10.0.0.1", 53, ProbeState.Open, 1⟩ : ProbeResult) then
              [(⟨"hostA", "10.0.0.2", 53, ProbeState.OpenOrFiltered, 3⟩ : ProbeResult),
               ⟨"hostA", "10.0.0.1", 53, ProbeState.Open, 1⟩]
            else
              ⟨"hostA", "10.0.0.1", 53, ProbeState.Open, 1⟩ ::
                List.orderedInsert resultLE
                  ⟨"hostA", "10.0.0.2", 53, ProbeState.OpenOrFiltered, 3⟩ []) = _
      rw [if_pos hy]
    rw [e1, e2]
    intro h
    have := List.head_eq_of_cons_eq h
    simp at this

/-- Claim C4, amended: the snapshot of a completed scan's result store is
sorted by (host, then port) and contains exactly the accumulated results,
for every completion order; and whenever the accumulated results have
pairwise-distinct (host, port) keys — as in single-address-per-host scans —
the snapshot is additionally the same list for every completion order of the
same results.  (With duplicate keys the snapshot provably depends on arrival
order; see the counterexample above.) -/
theorem snapshot_deterministic (s s' : ResultStore)
    (hinj : ∀ a ∈ s, ∀ b ∈ s, resultKey a = resultKey b → a = b)
    (hperm : List.Perm s' s) :
    List.Sorted resultLE (ResultStore.snapshot s) ∧
    List.Perm (ResultStore.snapshot s) s ∧
    ResultStore.snapshot s' = ResultStore.snapshot s := by
  have hsorted : List.Sorted resultLE (ResultStore.snapshot s) :=
    List.sorted_insertionSort resultLE s
  have hp1 : List.Perm (ResultStore.snapshot s) s :=
    List.perm_insertionSort resultLE s
  refine ⟨hsorted, hp1, ?_⟩
  refine sorted_perm_eq_of_injKeys _ _ ?_ ?_ ?_ hsorted
  · intro a ha b hb
    have ha' : a ∈ s := hperm.subset ((List.perm_insertionSort resultLE s').subset ha)
    have hb' : b ∈ s := hperm.subset ((List.perm_insertionSort resultLE s').subset hb)
    exact hinj a ha' b hb'
  · exact (List.perm_insertionSort resultLE s').trans (hperm.trans hp1.symm)
  · exact List.sorted_insertionSort resultLE s'

/-- The statement of `snapshot_deterministic` holds at a concrete two-result
store and its reversal. -/
theorem snapshot_deterministic_witness :
    (∀ a ∈ ([⟨"hostB", "10.0.0.2", 161, ProbeState.Open, 1⟩,
             ⟨"hostA", "10.0.0.1", 53, ProbeState.OpenOrFiltered, 3⟩] :
        List ProbeResult),
     ∀ b ∈ ([⟨"hostB", "10.0.0.2", 161, ProbeState.Open, 1⟩,
             ⟨"hostA", "10.0.0.1", 53, ProbeState.OpenOrFiltered, 3⟩] :
        List ProbeResult),
      resultKey a = resultKey b → a = b) ∧
    List.Perm
      ([⟨"hostA", "10.0.0.1", 53, ProbeState.OpenOrFiltered, 3⟩,
        ⟨"hostB", "10.0.0.2", 161, ProbeState.Open, 1⟩] : List ProbeResult)
      ([⟨"hostB", "10.0.0.2", 161, ProbeState.Open, 1⟩,
        ⟨"hostA", "10.0.0.1", 53, ProbeState.OpenOrFiltered, 3⟩] : List ProbeResult) ∧
    (List.Sorted resultLE
      (ResultStore.snapshot
        [⟨"hostB", "10.0.0.2", 161, ProbeState.Open, 1⟩,
         ⟨"hostA", "10.0.0.1", 53, ProbeState.OpenOrFiltered, 3⟩]) ∧
     List.Perm
      (ResultStore.snapshot
        [⟨"hostB", "10.0.0.2", 161, ProbeState.Open, 1⟩,
         ⟨"hostA", "10.0.0.1", 53, ProbeState.OpenOrFiltered, 3⟩])
      [⟨"hostB", "10.0.0.2", 161, ProbeState.Open, 1⟩,
       ⟨"hostA", "10.0.0.1", 53, ProbeState.OpenOrFiltered, 3⟩] ∧
     ResultStore.snapshot
       [⟨"hostA", "10.0.0.1", 53, ProbeState.OpenOrFiltered, 3⟩,
        ⟨"hostB", "10.0.0.2", 161, ProbeState.Open, 1⟩] =
     ResultStore.snapshot
       [⟨"hostB", "10.0.0.2", 161, ProbeState.Open, 1⟩,
        ⟨"hostA", "10.0.0.1", 53, ProbeState.OpenOrFiltered, 3⟩]) :=
  ⟨by decide, by decide,
   snapshot_deterministic
     [⟨"hostB", "10.0.0.2", 161, ProbeState.Open, 1⟩,
      ⟨"hostA", "10.0.0.1", 53, ProbeState.OpenOrFiltered, 3⟩]
     [⟨"hostA", "10.0.0.1", 53, ProbeState.OpenOrFiltered, 3⟩,
      ⟨"hostB", "10.0.0.2", 161, ProbeState.Open, 1⟩]
     (by decide) (by decide)⟩

/-- A scheduler step preserves the two-level bound: never more than `H`
active probers, never more than `P` active probes in one prober. -/
lemma schedStep_preserves {H P : Nat} {ps ps' : List Nat}
    (h : SchedStep H P ps ps')
    (hlen : ps.length ≤ H) (hbound : ∀ n ∈ ps, n ≤ P) :
    ps'.length ≤ H ∧ ∀ n ∈ ps', n ≤ P := by
  cases h with
  | startProber hH =>
    refine ⟨by simpa using hH, ?_⟩
    intro n hn
    rcases List.mem_cons.mp hn with h' | h'
    · simp [h']
    · exact hbound n h'
  | finishProber i hi =>
    refine ⟨le_trans (List.length_eraseIdx_le _ _) hlen, ?_⟩
    intro n hn
    exact hbound n (List.eraseIdx_subset _ _ hn)
  | startProbe i hi =>
    refine ⟨by simpa using hlen, ?_⟩
    intro n hn
    rcases List.mem_or_eq_of_mem_set hn with h' | h'
    · exact hbound n h'
    · omega
  | finishProbe i hi =>
    refine ⟨by simpa using hlen, ?_⟩
    intro n hn
    rcases List.mem_or_eq_of_mem_set hn with h' | h'
    · exact hbound n h'
    · have hmem : ps.get i ∈ ps := ps.get_mem i.1 i.2
      have := hbound (ps.get i) hmem
      omega

/-- A list of numbers each at most `P` sums to at most `length × P`. -/
lemma sum_le_length_mul {P : Nat} :
    ∀ ps : List Nat, (∀ n ∈ ps, n ≤ P) → ps.sum ≤ ps.length * P
  | [], _ => by simp
  | n :: t, h => by
    have h1 : n ≤ P := h n (List.mem_cons_self n t)
    have h2 : t.sum ≤ t.length * P :=
      sum_le_length_mul t (fun m hm => h m (List.mem_cons_of_mem n hm))
    simp only [List.sum_cons, List.length_cons]
    calc n + t.sum ≤ P + t.length * P := Nat.add_le_add h1 h2
    _ = (t.length + 1) * P := by ring

/-- Claim C5: in every reachable scheduler state there are at most `H`
active probers, each with at most `P` active port-probe state machines, so
the total number of concurrently active port-probe state machines across all
probers is at most `H × P`. -/
theorem concurrency_product_bound (H P : Nat) (ps : List Nat)
    (h : SchedReachable H P ps) :
    ps.length ≤ H ∧ (∀ n ∈ ps, n ≤ P) ∧ ps.sum ≤ H * P := by
  have hi : ps.length ≤ H ∧ ∀ n ∈ ps, n ≤ P := by
    induction h with
    | refl => exact ⟨by simp, by simp⟩
    | tail hsteps hstep ih => exact schedStep_preserves hstep ih.1 ih.2
  refine ⟨hi.1, hi.2, ?_⟩
  calc ps.sum ≤ ps.length * P := sum_le_length_mul ps hi.2
  _ ≤ H * P := Nat.mul_le_mul_right P hi.1

/-- The statement of `concurrency_product_bound` holds at a concrete
reachable state (`H = 10`, `P = 50`: one prober started, one probe active in
it). -/
theorem concurrency_product_bound_witness :
    SchedReachable 10 50 [1] ∧
    ([1] : List Nat).length ≤ 10 ∧ (∀ n ∈ ([1] : List Nat), n ≤ 50) ∧
    ([1] : List Nat).sum ≤ 10 * 50 := by
  have h0 : SchedStep 10 50 [] [0] := SchedStep.startProber (by decide)
  have h1 : SchedStep 10 50 [0] [1] :=
    @SchedStep.startProbe 10 50 [0] ⟨0, by decide⟩ (by decide)
  have hr : SchedReachable 10 50 [1] :=
    Relation.ReflTransGen.tail
      (Relation.ReflTransGen.tail Relation.ReflTransGen.refl h0) h1
  have hc := concurrency_product_bound 10 50 [1] hr
  exact ⟨hr, hc.1, hc.2.1, hc.2.2⟩
